import Mathlib

/-!
Verification of the 8080 / Space Invaders emulator (src/main.rs) against its
specification.  The CPU state, condition codes, memory, the instruction
interpreter Cpu.step, the host machine step with its IN/OUT overrides, the
interrupt routine and the simulated-time logic of the main loop are embedded
as executable Lean functions, translated arm by arm from the Rust source.

Conventions of the embedding:
* u8 / u16 values are Nat; wrapping arithmetic inserts the explicit
  % 256 / % 65536 reductions exactly where the Rust code wraps
  (wrapping_add, wrapping_sub, `as u8` / `as u16` casts).
* The five condition-code bits are Bool; every store site in the source
  writes a 0/1 u8 computed from a test, which the embedding writes as the
  Bool of that test, and every read site reads the bit back.
* Rust panics (out-of-bounds port index, unimplemented opcode) are `none`:
  Cpu.step and SpaceInvadersMachine.step return Option (state, cycles).
* The graphics / audio / window handles of the host struct and the event
  polling of the main loop are external collaborators and are omitted; the
  simulated-time interrupt logic of one loop iteration is kept.
-/

namespace Emu8080

/-- One bit of a Bool flag as the 0/1 u8 the source stores. -/
def bit (b : Bool) : Nat := if b then 1 else 0

/-- u8 wrapping subtraction a.wrapping_sub(b). -/
def sub8 (a b : Nat) : Nat := (a + (256 - b % 256)) % 256

/-- u16 wrapping subtraction a.wrapping_sub(b) (also the `sp - k` of push). -/
def sub16 (a b : Nat) : Nat := (a + (65536 - b % 65536)) % 65536

/-- u8 rotate_right(1): the low bit wraps around to bit 7. -/
def rotateRight8 (a : Nat) : Nat := ((a % 256) >>> 1) ||| (((a % 256) &&& 1) <<< 7)

/-- Transcription of fn parity(x: u8, size: u8) -> u8.  The source masks x
with 1u8.wrapping_shl(size) - 1; wrapping_shl reduces the shift amount mod 8,
so for size = 8 the mask is 1 - 1 = 0, the masked value is 0, the popcount
loop counts no bits, and the function returns 1 (even) for every input. -/
def parity (x size : Nat) : Bool :=
  let mask := (1 <<< (size % 8)) % 256 - 1
  let p := (List.range size).foldl (fun p i => p + (((x &&& mask) >>> i) &&& 1)) 0
  decide (p % 2 = 0)

/-- ConditionCodes struct: the five 8080 flags plus the unused pad byte. -/
structure ConditionCodes where
  z : Bool
  s : Bool
  p : Bool
  cy : Bool
  ac : Bool
  pad : Nat

/-- ConditionCodes::new(): all flags clear. -/
def ConditionCodes.new : ConditionCodes :=
  { z := false, s := false, p := false, cy := false, ac := false, pad := 0 }

/-- Memory::write on the 64 KiB byte array, as a function update. -/
def memWrite (m : Nat → Nat) (i d : Nat) : Nat → Nat :=
  fun j => if j = i then d else m j

/-- Zero-initialized memory with the ROM image loaded at address 0,
as SpaceInvadersMachine::new loads it. -/
def loadRom (bytes : List Nat) : Nat → Nat :=
  fun i => bytes.getD i 0

/-- The Cpu struct: register file, SP, PC, owned memory and flags, the
interrupt-enable latch, the eight-entry port array, and the clock speed. -/
structure Cpu where
  a : Nat
  b : Nat
  c : Nat
  d : Nat
  e : Nat
  h : Nat
  l : Nat
  sp : Nat
  pc : Nat
  mem : Nat → Nat
  cc : ConditionCodes
  interrupt_enabled : Bool
  ports : List Nat
  speed : Nat

/-- Cpu::with_size(65536) / Cpu::new(): the reset state. -/
def Cpu.new : Cpu where
  a := 0
  b := 0
  c := 0
  d := 0
  e := 0
  h := 0
  l := 0
  sp := 0
  pc := 0
  mem := fun _ => 0
  cc := ConditionCodes.new
  interrupt_enabled := false
  ports := [0, 0, 0, 0, 0, 0, 0, 0]
  speed := 2000000

/-- Cpu::push(hi, lo): hi at SP-1, lo at SP-2, then SP -= 2. -/
def Cpu.push (s : Cpu) (hi lo : Nat) : Cpu :=
  { s with
    mem := memWrite (memWrite s.mem (sub16 s.sp 1) hi) (sub16 s.sp 2) lo,
    sp := sub16 s.sp 2 }

/-- The packed PSW byte built by the PUSH PSW arm:
0b00000010 | cy | p << 2 | ac << 4 | z << 6 | s << 7. -/
def packPSW (cc : ConditionCodes) : Nat :=
  ((((2 ||| bit cc.cy) ||| (bit cc.p <<< 2)) ||| (bit cc.ac <<< 4)) |||
      (bit cc.z <<< 6)) ||| (bit cc.s <<< 7)

/-- The trailing `self.pc += 1` that every match arm without an early
`return` falls through to at the end of Cpu::step. -/
def tick (s : Cpu) : Cpu := { s with pc := (s.pc + 1) % 65536 }

/-- Cpu::step: fetch the byte at PC, execute the opcode's arm, return the
cycle count, and (for arms without an early `return`) run the trailing
`self.pc += 1` (tick).  The unimplemented-opcode panic is `none`, as is the
out-of-bounds port index panic of the IN/OUT arms.  Arms appear in the
source's opcode order. -/
def Cpu.step (s : Cpu) : Option (Cpu × Nat) :=
  let op := s.mem s.pc
  if op = 0x00 then -- NOP
    some (tick s, 4)
  else if op = 0x01 then -- LXI B,word
    let c := s.mem ((s.pc + 1) % 65536)
    let b := s.mem ((s.pc + 2) % 65536)
    some (tick { s with c := c, b := b, pc := (s.pc + 2) % 65536 }, 10)
  else if op = 0x02 then -- STAX B
    let addr := (s.c <<< 8) ||| s.b
    some (tick { s with a := s.mem addr }, 7)
  else if op = 0x03 then -- INX B
    let bc := (((s.c <<< 8) ||| s.b) + 1) % 65536
    some (tick { s with b := bc &&& 0xff, c := (bc &&& 0xff00) >>> 8 }, 5)
  else if op = 0x04 then -- INR B
    let b := (s.b + 1) % 256
    some (tick { s with
      b := b,
      cc := { s.cc with
        z := decide (b = 0),
        s := decide (b &&& 0x80 = 0x80),
        p := parity b 8 } }, 5)
  else if op = 0x05 then -- DCR B
    let b := sub8 s.b 1
    some (tick { s with
      b := b,
      cc := { s.cc with
        z := decide (b = 0),
        s := decide (b &&& 0x80 = 0x80),
        p := parity b 8 } }, 5)
  else if op = 0x06 then -- MVI B,D8
    let x := s.mem ((s.pc + 1) % 65536)
    some (tick { s with b := x, pc := (s.pc + 1) % 65536 }, 7)
  else if op = 0x09 then -- DAD B
    let bc := (s.b <<< 8) ||| s.c
    let hl := (((s.h <<< 8) ||| s.l) + bc) % 4294967296
    some (tick { s with
      l := hl &&& 0xff,
      h := (hl &&& 0xff00) >>> 8,
      cc := { s.cc with cy := decide (hl &&& 0xffff0000 > 0) } }, 10)
  else if op = 0x0a then -- LDAX B
    let addr := (s.b <<< 8) ||| s.c
    some (tick { s with a := s.mem addr }, 7)
  else if op = 0x0d then -- DCR C
    let c := sub8 s.c 1
    some (tick { s with
      c := c,
      cc := { s.cc with
        z := decide (c = 0),
        s := decide (c &&& 0x80 = 0x80),
        p := parity c 8 } }, 5)
  else if op = 0x0e then -- MVI C,D8
    let x := s.mem ((s.pc + 1) % 65536)
    some (tick { s with c := x, pc := (s.pc + 1) % 65536 }, 7)
  else if op = 0x0f then -- RRC
    let a := rotateRight8 s.a
    let cc := if a &&& 0x01 = 1 then { s.cc with cy := true } else s.cc
    some (tick { s with a := a, cc := cc }, 4)
  else if op = 0x11 then -- LXI D,D16
    let d := s.mem ((s.pc + 2) % 65536)
    let e := s.mem ((s.pc + 1) % 65536)
    some (tick { s with d := d, e := e, pc := (s.pc + 2) % 65536 }, 10)
  else if op = 0x13 then -- INX D
    let de := (((s.d <<< 8) ||| s.e) + 1) % 65536
    some (tick { s with e := de &&& 0xff, d := (de &&& 0xff00) >>> 8 }, 5)
  else if op = 0x18 then -- Nothing?
    some (tick s, 0)
  else if op = 0x19 then -- DAD D
    let de := (s.d <<< 8) ||| s.e
    let hl := (((s.h <<< 8) ||| s.l) + de) % 4294967296
    some (tick { s with
      l := hl &&& 0xff,
      h := (hl &&& 0xff00) >>> 8,
      cc := { s.cc with cy := decide (hl &&& 0xffff0000 ≠ 0) } }, 10)
  else if op = 0x1a then -- LDAX D
    let addr := (s.d <<< 8) ||| s.e
    some (tick { s with a := s.mem addr }, 7)
  else if op = 0x1b then -- DCX D
    let de := sub16 ((s.d <<< 8) ||| s.e) 1
    some (tick { s with e := de &&& 0xff, d := (de &&& 0xff00) >>> 8 }, 5)
  else if op = 0x1f then -- RAR
    let x := s.a
    let cc := if x &&& 0x01 = 1 then { s.cc with cy := true } else s.cc
    some (tick { s with a := (bit s.cc.cy <<< 7) ||| ((x % 256) >>> 1), cc := cc }, 4)
  else if op = 0x21 then -- LXI H,D16
    let lo := s.mem ((s.pc + 1) % 65536)
    let hi := s.mem ((s.pc + 2) % 65536)
    some (tick { s with l := lo, h := hi, pc := (s.pc + 2) % 65536 }, 10)
  else if op = 0x23 then -- INX H
    let hl := (((s.h <<< 8) ||| s.l) + 1) % 65536
    some (tick { s with l := hl &&& 0xff, h := (hl &&& 0xff00) >>> 8 }, 5)
  else if op = 0x24 then -- INR H
    let h := (s.h + 1) % 256
    some (tick { s with
      h := h,
      cc := { s.cc with
        z := decide (h = 0),
        s := decide (h &&& 0x80 = 0x80),
        p := parity h 8 } }, 5)
  else if op = 0x26 then -- MVI H,D8
    let x := s.mem ((s.pc + 1) % 65536)
    some (tick { s with h := x, pc := (s.pc + 1) % 65536 }, 7)
  else if op = 0x27 then -- DAA
    let a1 := if s.a &&& 0xf > 9 then (s.a + 9) % 256 else s.a
    if a1 &&& 0xf0 > 0x90 then
      let res := a1 + 0x60
      some (tick { s with
        a := res % 256,
        cc := { s.cc with
          cy := decide (res > 0xff),
          z := decide (res &&& 0xff = 0),
          s := decide (res &&& 0x80 = 0x80),
          p := parity (res % 256) 8 } }, 4)
    else
      some (tick { s with a := a1 }, 4)
  else if op = 0x29 then -- DAD H
    let hl0 := (s.h <<< 8) ||| s.l
    let hl := (hl0 + hl0) % 4294967296
    some (tick { s with
      l := hl &&& 0xff,
      h := (hl &&& 0xff00) >>> 8,
      cc := { s.cc with cy := decide (hl &&& 0xffff0000 ≠ 0) } }, 10)
  else if op = 0x31 then -- LXI SP,D16
    let lo := s.mem ((s.pc + 1) % 65536)
    let hi := s.mem ((s.pc + 2) % 65536)
    some (tick { s with sp := (hi <<< 8) ||| lo, pc := (s.pc + 2) % 65536 }, 10)
  else if op = 0x32 then -- STA addr
    let lo := s.mem ((s.pc + 1) % 65536)
    let hi := s.mem ((s.pc + 2) % 65536)
    let addr := (hi <<< 8) ||| lo
    some (tick { s with mem := memWrite s.mem addr s.a, pc := (s.pc + 2) % 65536 }, 13)
  else if op = 0x35 then -- DCR M
    let hl := (s.h <<< 8) ||| s.l
    let x := sub8 (s.mem hl) 1
    some (tick { s with
      mem := memWrite s.mem hl x,
      cc := { s.cc with
        z := decide (x = 0),
        s := decide (x &&& 0x80 = 0x80),
        p := parity x 8 } }, 10)
  else if op = 0x36 then -- MVI M,D8
    let x := s.mem ((s.pc + 1) % 65536)
    let addr := (s.h <<< 8) ||| s.l
    some (tick { s with mem := memWrite s.mem addr x, pc := (s.pc + 1) % 65536 }, 10)
  else if op = 0x37 then -- STC
    some (tick { s with cc := { s.cc with cy := true } }, 4)
  else if op = 0x39 then -- DAD SP
    let hl := (s.h <<< 8) ||| s.l
    let sp := (s.sp + hl) % 4294967296
    some (tick { s with
      sp := sp &&& 0xffff,
      cc := { s.cc with cy := decide (sp &&& 0xffff0000 ≠ 0) } }, 10)
  else if op = 0x3a then -- LDA addr
    let lo := s.mem ((s.pc + 1) % 65536)
    let hi := s.mem ((s.pc + 2) % 65536)
    let addr := (hi <<< 8) ||| lo
    some (tick { s with a := s.mem addr, pc := (s.pc + 2) % 65536 }, 13)
  else if op = 0x3d then -- DCR A
    let a := sub8 s.a 1
    some (tick { s with
      a := a,
      cc := { s.cc with
        z := decide (a = 0),
        s := decide (a &&& 0x80 = 0x80),
        p := parity a 8 } }, 5)
  else if op = 0x3e then -- MVI A,D8
    let x := s.mem ((s.pc + 1) % 65536)
    some (tick { s with a := x, pc := (s.pc + 1) % 65536 }, 7)
  else if op = 0x41 then -- MOV B,C
    some (tick { s with b := s.c }, 5)
  else if op = 0x42 then -- MOV B,D
    some (tick { s with b := s.d }, 5)
  else if op = 0x43 then -- MOV B,E
    some (tick { s with b := s.e }, 5)
  else if op = 0x4d then -- MOV C,L
    some (tick { s with c := s.l }, 5)
  else if op = 0x4e then -- MOV C,M
    let addr := (s.h <<< 8) ||| s.l
    some (tick { s with c := s.mem addr }, 7)
  else if op = 0x56 then -- MOV D,M
    let addr := (s.h <<< 8) ||| s.l
    some (tick { s with d := s.mem addr }, 7)
  else if op = 0x57 then -- MOV D,A
    some (tick { s with d := s.a }, 5)
  else if op = 0x5e then -- MOV E,M
    let addr := (s.h <<< 8) ||| s.l
    some (tick { s with e := s.mem addr }, 7)
  else if op = 0x5f then -- MOV E,A
    some (tick { s with e := s.a }, 5)
  else if op = 0x66 then -- MOV H,M
    let addr := (s.h <<< 8) ||| s.l
    some (tick { s with h := s.mem addr }, 7)
  else if op = 0x67 then -- MOV H,A
    some (tick { s with h := s.a }, 5)
  else if op = 0x6f then -- MOV L,A
    some (tick { s with l := s.a }, 5)
  else if op = 0x77 then -- MOV M,A
    let addr := (s.h <<< 8) ||| s.l
    some (tick { s with mem := memWrite s.mem addr s.a }, 7)
  else if op = 0x7a then -- MOV A,D
    some (tick { s with a := s.d }, 5)
  else if op = 0x7b then -- MOV A,E
    some (tick { s with a := s.e }, 5)
  else if op = 0x7c then -- MOV A,H
    some (tick { s with a := s.h }, 5)
  else if op = 0x7e then -- MOV A,M
    let addr := (s.h <<< 8) ||| s.l
    some (tick { s with a := s.mem addr }, 7)
  else if op = 0x82 then -- ADD D (note the extra pc += 1 inside the arm)
    let x := s.a + s.d
    some (tick { s with
      a := x % 256,
      pc := (s.pc + 1) % 65536,
      cc := { s.cc with
        z := decide (x &&& 0xff = 0),
        s := decide (x &&& 0x80 > 0),
        cy := decide (x > 0xff),
        p := parity (x &&& 0xff) 8 } }, 4)
  else if op = 0xa7 then -- ANA A
    let a := s.a &&& s.a
    some (tick { s with
      a := a,
      cc := { s.cc with
        cy := false,
        ac := false,
        z := decide (a = 0),
        s := decide (a &&& 0x80 = 0x80),
        p := parity a 8 } }, 4)
  else if op = 0xaf then -- XRA A
    let a := s.a ^^^ s.a
    some (tick { s with
      a := a,
      cc := { s.cc with
        cy := false,
        ac := false,
        z := decide (a = 0),
        s := decide (a &&& 0x80 = 0x80),
        p := parity a 8 } }, 4)
  else if op = 0xc0 then -- RNZ (no early return: the taken path is also ticked)
    if s.cc.z = false then
      let lo := s.mem s.sp
      let hi := s.mem ((s.sp + 1) % 65536)
      some (tick { s with pc := (hi <<< 8) ||| lo, sp := (s.sp + 2) % 65536 }, 11)
    else
      some (tick s, 5)
  else if op = 0xc1 then -- POP B
    some (tick { s with
      c := s.mem s.sp,
      b := s.mem ((s.sp + 1) % 65536),
      sp := (s.sp + 2) % 65536 }, 10)
  else if op = 0xc2 then -- JNZ (taken path returns early, skipping tick)
    if s.cc.z = false then
      let lo := s.mem ((s.pc + 1) % 65536)
      let hi := s.mem ((s.pc + 2) % 65536)
      some ({ s with pc := (hi <<< 8) ||| lo }, 10)
    else
      some (tick { s with pc := (s.pc + 2) % 65536 }, 10)
  else if op = 0xc3 then -- JMP addr (returns early, skipping tick)
    let lo := s.mem ((s.pc + 1) % 65536)
    let hi := s.mem ((s.pc + 2) % 65536)
    some ({ s with pc := (hi <<< 8) ||| lo }, 10)
  else if op = 0xc5 then -- PUSH B
    some (tick { s with
      mem := memWrite (memWrite s.mem (sub16 s.sp 1) s.b) (sub16 s.sp 2) s.c,
      sp := sub16 s.sp 2 }, 11)
  else if op = 0xc6 then -- ADI D8
    let x := s.a + s.mem ((s.pc + 1) % 65536)
    some (tick { s with
      a := x % 256,
      pc := (s.pc + 1) % 65536,
      cc := { s.cc with
        z := decide (x &&& 0xff = 0),
        s := decide (x &&& 0x80 > 0),
        cy := decide (x > 0xff),
        p := parity (x &&& 0xff) 8 } }, 7)
  else if op = 0xc8 then -- RZ (no early return: the taken path is also ticked)
    if s.cc.z = true then
      let lo := s.mem s.sp
      let hi := s.mem ((s.sp + 1) % 65536)
      some (tick { s with pc := (hi <<< 8) ||| lo, sp := (s.sp + 2) % 65536 }, 11)
    else
      some (tick s, 5)
  else if op = 0xc9 then -- RET (returns early, skipping tick)
    let lo := s.mem s.sp
    let hi := s.mem ((s.sp + 1) % 65536)
    some ({ s with pc := (hi <<< 8) ||| lo, sp := (s.sp + 2) % 65536 }, 10)
  else if op = 0xca then -- JZ addr (only the taken path returns early)
    if s.cc.z = true then
      let lo := s.mem ((s.pc + 1) % 65536)
      let hi := s.mem ((s.pc + 2) % 65536)
      some ({ s with pc := (hi <<< 8) ||| lo }, 10)
    else
      some (tick s, 10)
  else if op = 0xcd then -- CALL addr (returns early, skipping tick)
    let ret := (s.pc + 3) % 65536
    let rlo := ret &&& 0x00ff
    let rhi := (ret &&& 0xff00) >>> 8
    let m2 := memWrite (memWrite s.mem (sub16 s.sp 1) rhi) (sub16 s.sp 2) rlo
    let lo := m2 ((s.pc + 1) % 65536)
    let hi := m2 ((s.pc + 2) % 65536)
    some ({ s with mem := m2, sp := sub16 s.sp 2, pc := (hi <<< 8) ||| lo }, 17)
  else if op = 0xd1 then -- POP D
    some (tick { s with
      e := s.mem s.sp,
      d := s.mem ((s.sp + 1) % 65536),
      sp := (s.sp + 2) % 65536 }, 10)
  else if op = 0xd2 then -- JNC addr (no early return: the taken path is ticked)
    if s.cc.cy = false then
      let lo := s.mem ((s.pc + 1) % 65536)
      let hi := s.mem ((s.pc + 2) % 65536)
      some (tick { s with pc := (hi <<< 8) ||| lo }, 10)
    else
      some (tick { s with pc := (s.pc + 2) % 65536 }, 10)
  else if op = 0xd3 then -- OUT D8 (ports[port] panics for port >= 8)
    let port := s.mem ((s.pc + 1) % 65536)
    if port < s.ports.length then
      some (tick { s with ports := s.ports.set port s.a, pc := (s.pc + 1) % 65536 }, 10)
    else
      none
  else if op = 0xd5 then -- PUSH D
    some (tick { s with
      mem := memWrite (memWrite s.mem (sub16 s.sp 1) s.d) (sub16 s.sp 2) s.e,
      sp := sub16 s.sp 2 }, 11)
  else if op = 0xda then -- JC addr (no early return: the taken path is ticked)
    if s.cc.cy = true then
      let lo := s.mem ((s.pc + 1) % 65536)
      let hi := s.mem ((s.pc + 2) % 65536)
      some (tick { s with pc := (hi <<< 8) ||| lo }, 10)
    else
      some (tick { s with pc := (s.pc + 2) % 65536 }, 10)
  else if op = 0xdb then -- IN port (ports[port] panics for port >= 8)
    let port := s.mem ((s.pc + 1) % 65536)
    match s.ports.get? port with
    | some v => some (tick { s with a := v, pc := (s.pc + 1) % 65536 }, 10)
    | none => none
  else if op = 0xe1 then -- POP H
    some (tick { s with
      l := s.mem s.sp,
      h := s.mem ((s.sp + 1) % 65536),
      sp := (s.sp + 2) % 65536 }, 10)
  else if op = 0xe5 then -- PUSH H
    some (tick { s with
      mem := memWrite (memWrite s.mem (sub16 s.sp 1) s.h) (sub16 s.sp 2) s.l,
      sp := sub16 s.sp 2 }, 11)
  else if op = 0xe6 then -- ANI D8 (the source does not update P here)
    let x := s.mem ((s.pc + 1) % 65536)
    let a := s.a &&& x
    some (tick { s with
      a := a,
      pc := (s.pc + 1) % 65536,
      cc := { s.cc with
        cy := false,
        ac := false,
        z := decide (a = 0),
        s := decide (a &&& 0x80 = 0x80) } }, 7)
  else if op = 0xeb then -- XCHG
    some (tick { s with d := s.h, e := s.l, h := s.d, l := s.e }, 4)
  else if op = 0xf1 then -- POP PSW
    let x := s.mem s.sp
    some (tick { s with
      cc := { s.cc with
        cy := decide (x &&& 0x01 = 1),
        p := decide ((x >>> 2) &&& 0x01 = 1),
        ac := decide ((x >>> 4) &&& 0x01 = 1),
        z := decide ((x >>> 6) &&& 0x01 = 1),
        s := decide ((x >>> 7) &&& 0x01 = 1) },
      a := s.mem ((s.sp + 1) % 65536),
      sp := (s.sp + 2) % 65536 }, 10)
  else if op = 0xf5 then -- PUSH PSW
    some (tick { s with
      mem := memWrite (memWrite s.mem (sub16 s.sp 1) s.a) (sub16 s.sp 2) (packPSW s.cc),
      sp := sub16 s.sp 2 }, 11)
  else if op = 0xfb then -- EI
    some (tick { s with interrupt_enabled := true }, 4)
  else if op = 0xfe then -- CPI D8
    let x := s.mem ((s.pc + 1) % 65536)
    let y := sub8 s.a x
    some (tick { s with
      pc := (s.pc + 1) % 65536,
      cc := { s.cc with
        z := decide (y = 0),
        s := decide (y &&& 0x08 = 0x08),
        p := parity x 8,
        cy := decide (s.a < x) } }, 7)
  else -- panic: unimplemented opcode
    none

/-- The SpaceInvadersMachine struct: the owned CPU, the simulated-time
nanosecond counter, and the three shift-register bytes.  The window,
shader program, texture and vertex/index buffer handles are external
graphics collaborators and are not part of the behavioural state. -/
structure SpaceInvadersMachine where
  cpu : Cpu
  time : Nat
  shiftx : Nat
  shifty : Nat
  shift_offset : Nat

/-- SpaceInvadersMachine::new(data): a reset CPU with the ROM image loaded
at address 0, time 0, and a cleared shift register. -/
def SpaceInvadersMachine.new (data : List Nat) : SpaceInvadersMachine where
  cpu := { Cpu.new with mem := loadRom data }
  time := 0
  shiftx := 0
  shifty := 0
  shift_offset := 0

/-- SpaceInvadersMachine::step: intercepts OUT (0xd3) and IN (0xdb) before
delegating every other opcode to Cpu::step.  The OUT arm stores A into
ports[port] (an out-of-bounds panic for port >= 8, hence `none`) and then
updates the shift register for ports 2 and 4; the IN arm computes A directly
from the port operand and never indexes the port array.  Both overrides
advance PC by 2 and charge 10 cycles.  The `8 - shift_offset` of the IN 3
arm is u8 subtraction, written here as Nat truncated subtraction, which
agrees with it whenever shift_offset <= 8 (OUT 2 only ever stores A & 0x7). -/
def SpaceInvadersMachine.step (m : SpaceInvadersMachine) :
    Option (SpaceInvadersMachine × Nat) :=
  let op := m.cpu.mem m.cpu.pc
  if op = 0xd3 then -- OUT D8
    let port := m.cpu.mem ((m.cpu.pc + 1) % 65536)
    let value := m.cpu.a
    if port < m.cpu.ports.length then
      let cpu1 := { m.cpu with ports := m.cpu.ports.set port value }
      let m1 :=
        if port = 2 then { m with cpu := cpu1, shift_offset := value &&& 0x7 }
        else if port = 4 then { m with cpu := cpu1, shifty := m.shiftx, shiftx := value }
        else { m with cpu := cpu1 }
      some ({ m1 with cpu := { m1.cpu with pc := (m1.cpu.pc + 2) % 65536 } }, 10)
    else
      none
  else if op = 0xdb then -- IN D8
    let port := m.cpu.mem ((m.cpu.pc + 1) % 65536)
    let a :=
      if port = 0 then 1
      else if port = 1 then 0
      else if port = 3 then
        let value := (m.shifty <<< 8) ||| m.shiftx
        (value >>> (8 - m.shift_offset)) &&& 0xff
      else m.cpu.a
    some ({ m with cpu := { m.cpu with a := a, pc := (m.cpu.pc + 2) % 65536 } }, 10)
  else
    (m.cpu.step).map (fun r => ({ m with cpu := r.1 }, r.2))

/-- SpaceInvadersMachine::interrupt(int): push PC (high then low), vector to
8 * int, clear the interrupt-enable latch.  (The latch test lives in the
caller, the run loop.) -/
def SpaceInvadersMachine.interrupt (m : SpaceInvadersMachine) (int : Nat) :
    SpaceInvadersMachine :=
  let hi := (m.cpu.pc &&& 0xff00) >>> 8
  let lo := m.cpu.pc &&& 0xff
  let cpu1 := m.cpu.push hi lo
  { m with cpu := { cpu1 with pc := (8 * int) % 65536, interrupt_enabled := false } }

/-- ((1.0 / 60.0) * 1e9) as u64, the interrupt threshold of the run loop. -/
def sixtiethOfSecondNs : Nat := 16666666

/-- ((1.0 / 2_000_000) * 1e9) as u32, nanoseconds per CPU cycle. -/
def nsPerCycle : Nat := 500

/-- One iteration of the simulated-time logic of SpaceInvadersMachine::run:
step the machine, advance the simulated nanosecond clock by cycles *
ns_per_cycle, and, when the interrupt-enable latch is set and at least
sixtieth_of_second_ns of simulated time has passed since the last interrupt,
deliver interrupt(next_int) and record the new last-interrupt time.  The
source initialises next_int to 2 and its toggle line is commented out, so
next_int is returned unchanged.  The real-time event polling and the
framebuffer draw are external collaborators and are omitted.  Returns the
machine, the last-interrupt time and next_int after the iteration. -/
def SpaceInvadersMachine.runIter (m : SpaceInvadersMachine)
    (lastInterruptTimeNs nextInt : Nat) :
    Option (SpaceInvadersMachine × Nat × Nat) :=
  (m.step).map (fun r =>
    let m1 := { r.1 with time := r.1.time + r.2 * nsPerCycle }
    if m1.cpu.interrupt_enabled = true ∧
        m1.time - lastInterruptTimeNs ≥ sixtiethOfSecondNs then
      (m1.interrupt nextInt, m1.time, nextInt)
    else
      (m1, lastInterruptTimeNs, nextInt))

/-! Concrete states used by the per-claim evaluations. -/

/-- Reset CPU with mem = [0xca, 0x05, 0x00] (JZ 0x0005) and Z = 0. -/
def jzState : Cpu := { Cpu.new with mem := loadRom [0xca, 0x05, 0x00] }

/-- Reset CPU with mem = [0x04] (INR B) and B = 0xFF. -/
def inrState : Cpu := { Cpu.new with mem := loadRom [0x04], b := 0xff }

/-- Reset CPU with mem = [0xfe, 0x00] (CPI 0x00) and A = 0x80. -/
def cpiState : Cpu := { Cpu.new with mem := loadRom [0xfe, 0x00], a := 0x80 }

/-- Reset CPU with mem = [0x02] (STAX B), A = 0x56, B = 0x12, C = 0x34. -/
def staxState : Cpu := { Cpu.new with mem := loadRom [0x02], a := 0x56, b := 0x12, c := 0x34 }

/-- Reset CPU with mem = [0x0f] (RRC) and A = 0x02 (bit 0 clear). -/
def rrcState0 : Cpu := { Cpu.new with mem := loadRom [0x0f], a := 0x02 }

/-- Reset CPU with mem = [0x0f] (RRC) and A = 0x01 (bit 0 set), CY = 0. -/
def rrcState1 : Cpu := { Cpu.new with mem := loadRom [0x0f], a := 0x01 }

/-- Host machine on a NOP ROM with the latch set, whose simulated clock will
read 10,000,000 ns (more than 1/120 s, less than 1/60 s, past a last-vblank
time of 0) after the next step. -/
def vblankNearMachine : SpaceInvadersMachine :=
  { SpaceInvadersMachine.new [0x00] with
    time := 9998000,
    cpu := { Cpu.new with mem := loadRom [0x00], interrupt_enabled := true } }

/-- Host machine on a NOP ROM with the latch set, whose simulated clock will
read 16,668,000 ns (more than 1/60 s past a last-vblank time of 0) after the
next step. -/
def vblankDueMachine : SpaceInvadersMachine :=
  { SpaceInvadersMachine.new [0x00] with
    time := 16666000,
    cpu := { Cpu.new with mem := loadRom [0x00], interrupt_enabled := true } }

/-- Host machine about to execute IN 1, with input port byte ports[1] = 0x20
(the RIGHT-key bit the run loop sets on a key press). -/
def in1Machine : SpaceInvadersMachine :=
  { SpaceInvadersMachine.new [0xdb, 0x01] with
    cpu := { Cpu.new with mem := loadRom [0xdb, 0x01], ports := [0, 0x20, 0, 0, 0, 0, 0, 0] } }

/-- Host machine about to execute IN 8 (a port operand past the 8-entry
port array). -/
def in8Machine : SpaceInvadersMachine := SpaceInvadersMachine.new [0xdb, 0x08]

/-- CPU about to run PUSH PSW; POP PSW with SP = 0x2400 (stack cells 0x23ff,
0x23fe are disjoint from the instruction bytes at 0 and 1) and a mixed flag
pattern. -/
def pswCpu : Cpu :=
  { Cpu.new with
    mem := loadRom [0xf5, 0xf1],
    sp := 0x2400,
    a := 0x9a,
    cc := { z := true, s := false, p := true, cy := true, ac := false, pad := 0 } }

/-- Host machine about to execute IN 3 with a loaded shift register. -/
def shiftInMachine : SpaceInvadersMachine :=
  { SpaceInvadersMachine.new [0xdb, 0x03] with
    shiftx := 0xab,
    shifty := 0xcd,
    shift_offset := 2 }

/-- Host machine about to execute OUT 2 with A = 0x0d. -/
def shiftOut2Machine : SpaceInvadersMachine :=
  { SpaceInvadersMachine.new [0xd3, 0x02] with
    cpu := { Cpu.new with mem := loadRom [0xd3, 0x02], a := 0x0d } }

/-- Host machine about to execute OUT 4 with A = 0x77 and shiftx = 0x55. -/
def shiftOut4Machine : SpaceInvadersMachine :=
  { SpaceInvadersMachine.new [0xd3, 0x04] with
    cpu := { Cpu.new with mem := loadRom [0xd3, 0x04], a := 0x77 },
    shiftx := 0x55 }

/-- CPU about to execute IN 8 through Cpu::step directly. -/
def in8Cpu : Cpu := { Cpu.new with mem := loadRom [0xdb, 0x08] }

/-- CPU about to execute OUT 8 through Cpu::step directly. -/
def out8Cpu : Cpu := { Cpu.new with mem := loadRom [0xd3, 0x08] }

/-- Host machine about to execute OUT 5 (an in-range port). -/
def out5Machine : SpaceInvadersMachine := SpaceInvadersMachine.new [0xd3, 0x05]

/-! Helper lemmas shared by the claim theorems. -/

/-- Reading the cell a memory write just wrote gives the written byte. -/
theorem memWrite_hit (m : Nat → Nat) (i d : Nat) : memWrite m i d i = d := by
  simp [memWrite]

/-- Reading any other cell after a memory write sees the old memory. -/
theorem memWrite_miss (m : Nat → Nat) (i d : Nat) {j : Nat} (h : j ≠ i) :
    memWrite m i d j = m j := by
  simp [memWrite, h]

/-- The five flag bits can be read back out of the packed PSW byte, stated
over the raw bit expression so all 32 flag combinations can be checked. -/
theorem packPSW_bitsAux : ∀ z s p cy ac : Bool,
    decide ((((((2 ||| bit cy) ||| (bit p <<< 2)) ||| (bit ac <<< 4)) |||
        (bit z <<< 6)) ||| (bit s <<< 7)) &&& 0x01 = 1) = cy ∧
    decide (((((((2 ||| bit cy) ||| (bit p <<< 2)) ||| (bit ac <<< 4)) |||
        (bit z <<< 6)) ||| (bit s <<< 7)) >>> 2) &&& 0x01 = 1) = p ∧
    decide (((((((2 ||| bit cy) ||| (bit p <<< 2)) ||| (bit ac <<< 4)) |||
        (bit z <<< 6)) ||| (bit s <<< 7)) >>> 4) &&& 0x01 = 1) = ac ∧
    decide (((((((2 ||| bit cy) ||| (bit p <<< 2)) ||| (bit ac <<< 4)) |||
        (bit z <<< 6)) ||| (bit s <<< 7)) >>> 6) &&& 0x01 = 1) = z ∧
    decide (((((((2 ||| bit cy) ||| (bit p <<< 2)) ||| (bit ac <<< 4)) |||
        (bit z <<< 6)) ||| (bit s <<< 7)) >>> 7) &&& 0x01 = 1) = s := by
  decide

/-- POP PSW's bit extractions recover each flag from PUSH PSW's packed byte. -/
theorem packPSW_bits (cc : ConditionCodes) :
    decide (packPSW cc &&& 0x01 = 1) = cc.cy ∧
    decide ((packPSW cc >>> 2) &&& 0x01 = 1) = cc.p ∧
    decide ((packPSW cc >>> 4) &&& 0x01 = 1) = cc.ac ∧
    decide ((packPSW cc >>> 6) &&& 0x01 = 1) = cc.z ∧
    decide ((packPSW cc >>> 7) &&& 0x01 = 1) = cc.s :=
  packPSW_bitsAux cc.z cc.s cc.p cc.cy cc.ac

/-- Unfolding of Cpu::step at a PUSH PSW opcode. -/
theorem step_push_psw (t : Cpu) (hop : t.mem t.pc = 0xf5) :
    Cpu.step t = some (tick { t with
      mem := memWrite (memWrite t.mem (sub16 t.sp 1) t.a) (sub16 t.sp 2) (packPSW t.cc),
      sp := sub16 t.sp 2 }, 11) := by
  simp only [Cpu.step, hop]
  norm_num

/-- Unfolding of Cpu::step at a POP PSW opcode. -/
theorem step_pop_psw (t : Cpu) (hop : t.mem t.pc = 0xf1) :
    Cpu.step t = some (tick { t with
      cc := { t.cc with
        cy := decide (t.mem t.sp &&& 0x01 = 1),
        p := decide ((t.mem t.sp >>> 2) &&& 0x01 = 1),
        ac := decide ((t.mem t.sp >>> 4) &&& 0x01 = 1),
        z := decide ((t.mem t.sp >>> 6) &&& 0x01 = 1),
        s := decide ((t.mem t.sp >>> 7) &&& 0x01 = 1) },
      a := t.mem ((t.sp + 1) % 65536),
      sp := (t.sp + 2) % 65536 }, 10) := by
  simp only [Cpu.step, hop]
  norm_num

/-! Per-claim theorems. -/

/-- C1: the spec claims a conditional jump whose condition is false advances
PC by the documented 3-byte length; evaluating Cpu::step from reset on
mem = [0xca, 0x05, 0x00] (JZ with Z = 0) instead leaves PC = 1, because the
JZ arm's not-taken path does not run the `self.pc += 2` its sibling arms
run before the trailing increment. -/
theorem jz_not_taken_advances_pc_by_one :
    ((Cpu.step jzState).map fun r => (r.1.pc, r.2)) = some (1, 10) := rfl

/-- C2: the spec claims INR B with B = 0xFF sets AC = 1 (and updates P from
the result); evaluating Cpu::step from reset on mem = [0x04], B = 0xFF gives
B = 0, Z = 1, S = 0, P = 1, CY = 0, PC = 1, 5 cycles, but AC stays 0: the
INR/DCR arms never touch AC (and the parity helper returns 1 for every
input, so P is not computed from the result). -/
theorem inr_b_leaves_ac_clear :
    ((Cpu.step inrState).map fun r =>
      (r.1.b, r.1.cc.z, r.1.cc.s, r.1.cc.p, r.1.cc.ac, r.1.cc.cy, r.1.pc, r.2))
      = some (0, true, false, true, false, false, 1, 5) := rfl

/-- C3: the spec claims CPI sets S iff bit 7 of A - d8 is 1 and P from the
result's parity; evaluating Cpu::step from reset on mem = [0xfe, 0x00] with
A = 0x80 (result 0x80: bit 7 set, odd parity) gives S = 0 and P = 1, because
the CPI arm tests y & 0x08 (bit 3) and calls the broken parity helper on the
operand.  A is unchanged and Z, CY, PC behave as claimed. -/
theorem cpi_sign_parity_divergence :
    ((Cpu.step cpiState).map fun r =>
      (r.1.a, r.1.cc.z, r.1.cc.s, r.1.cc.p, r.1.cc.cy, r.1.pc, r.2))
      = some (0x80, false, false, true, false, 2, 7) := rfl

/-- C4: the spec claims STAX B writes A to memory at (B<<8)|C; evaluating
Cpu::step on mem = [0x02] with A = 0x56, B = 0x12, C = 0x34 leaves memory
completely unchanged (in particular address 0x1234 still holds 0, not 0x56)
and instead loads A from address (C<<8)|B = 0x3412, clobbering A to 0. -/
theorem stax_b_reads_instead_of_writes :
    ∃ s, Cpu.step staxState = some (s, 7) ∧ s.a = 0 ∧ s.mem = staxState.mem ∧
      staxState.mem 0x1234 = 0 ∧ s.pc = 1 :=
  ⟨_, rfl, rfl, rfl, rfl, rfl⟩

/-- C5: the spec claims RRC sets CY equal to bit 0 of the pre-instruction A;
evaluating Cpu::step on mem = [0x0f]: with A = 0x02 (old bit 0 clear) the
code sets CY = 1, and with A = 0x01 (old bit 0 set) it leaves CY = 0 - the
arm tests bit 0 of the already-rotated value and only ever sets, never
clears, CY. -/
theorem rrc_carry_divergence :
    (((Cpu.step rrcState0).map fun r => (r.1.a, r.1.cc.cy, r.1.pc, r.2))
        = some (0x01, true, 1, 4)) ∧
    (((Cpu.step rrcState1).map fun r => (r.1.a, r.1.cc.cy, r.1.pc, r.2))
        = some (0x80, false, 1, 4)) :=
  ⟨rfl, rfl⟩

/-- C8: the spec claims an interrupt is delivered once the latch is set and
1/120 s of simulated time has elapsed since the last vblank, with the vector
alternating 1 and 2.  Evaluating one run-loop iteration: with 10,000,000 ns
elapsed (past 1/120 s = 8,333,333 ns) no interrupt is delivered - PC just
advances to 1, the latch stays set and the last-vblank time is unchanged -
because the loop's threshold is sixtieth_of_second_ns = 16,666,666 ns; and
once that larger threshold is passed the interrupt vectors to 8 * 2 = 16
(RST 2) with next_int still 2 afterwards, because the toggle is commented
out. -/
theorem run_loop_interrupt_cadence :
    (∃ r, SpaceInvadersMachine.runIter vblankNearMachine 0 2 = some r ∧
      r.1.cpu.pc = 1 ∧ r.1.cpu.interrupt_enabled = true ∧ r.1.time = 10000000 ∧
      r.2.1 = 0 ∧ r.2.2 = 2) ∧
    (∃ r, SpaceInvadersMachine.runIter vblankDueMachine 0 2 = some r ∧
      r.1.cpu.pc = 16 ∧ r.1.cpu.interrupt_enabled = false ∧
      r.2.1 = 16668000 ∧ r.2.2 = 2) :=
  ⟨⟨_, rfl, rfl, rfl, rfl, rfl, rfl⟩, ⟨_, rfl, rfl, rfl, rfl, rfl⟩⟩

/-- C9: the spec claims the host's IN 1 returns the CPU's input port byte;
evaluating the host step on a machine whose ports[1] = 0x20 (RIGHT pressed)
puts 0 into A, not 0x20: the IN arm's match maps port 1 to the constant 0
and never reads the port array. -/
theorem host_in1_returns_zero :
    in1Machine.cpu.ports.get? 1 = some 0x20 ∧
    ∃ m, in1Machine.step = some (m, 10) ∧ m.cpu.a = 0 ∧ m.cpu.pc = 2 :=
  ⟨rfl, _, rfl, rfl, rfl⟩

/-- C10 counterexample: the claim says executing any IN instruction with a
port operand of 8 or more panics; the host's step on IN 8 instead completes
normally (10 cycles, PC = 2, A unchanged), because the host's IN arm never
indexes the port array. -/
theorem host_in_port8_completes :
    ∃ m, in8Machine.step = some (m, 10) ∧ m.cpu.a = in8Machine.cpu.a ∧ m.cpu.pc = 2 :=
  ⟨_, rfl, rfl, rfl⟩

set_option maxRecDepth 8192 in
/-- C6: for every CPU state with SP between 2 and 0xFFFF whose next two
bytes are PUSH PSW (0xf5) then POP PSW (0xf1) and whose stack cells SP-1,
SP-2 do not overlap the two instruction bytes, executing the two steps (11
then 10 cycles) restores A, all five flags, and SP. -/
theorem push_pop_psw_roundtrip (s : Cpu)
    (hsp2 : 2 ≤ s.sp) (hsp : s.sp < 65536)
    (hop1 : s.mem s.pc = 0xf5) (hop2 : s.mem ((s.pc + 1) % 65536) = 0xf1)
    (h1p : s.sp - 1 ≠ s.pc) (h1q : s.sp - 1 ≠ (s.pc + 1) % 65536)
    (h2p : s.sp - 2 ≠ s.pc) (h2q : s.sp - 2 ≠ (s.pc + 1) % 65536) :
    ((Cpu.step s).bind fun r1 => (Cpu.step r1.1).map fun r2 =>
        (r1.2, r2.2, r2.1.a, r2.1.cc.z, r2.1.cc.s, r2.1.cc.p, r2.1.cc.cy, r2.1.cc.ac, r2.1.sp))
      = some (11, 10, s.a, s.cc.z, s.cc.s, s.cc.p, s.cc.cy, s.cc.ac, s.sp) := by
  have e1 : sub16 s.sp 1 = s.sp - 1 := by unfold sub16; omega
  have e2 : sub16 s.sp 2 = s.sp - 2 := by unfold sub16; omega
  have hv1 : memWrite (memWrite s.mem (sub16 s.sp 1) s.a) (sub16 s.sp 2) (packPSW s.cc)
      ((s.pc + 1) % 65536) = 0xf1 := by
    rw [e1, e2, memWrite_miss _ _ _ (Ne.symm h2q), memWrite_miss _ _ _ (Ne.symm h1q), hop2]
  rw [step_push_psw s hop1]
  simp only [Option.some_bind]
  rw [step_pop_psw (tick { s with
      mem := memWrite (memWrite s.mem (sub16 s.sp 1) s.a) (sub16 s.sp 2) (packPSW s.cc),
      sp := sub16 s.sp 2 }) hv1]
  simp only [Option.map_some', Option.some.injEq, Prod.mk.injEq, tick]
  have hvp : memWrite (memWrite s.mem (sub16 s.sp 1) s.a) (sub16 s.sp 2) (packPSW s.cc)
      (sub16 s.sp 2) = packPSW s.cc := memWrite_hit _ _ _
  have hva : memWrite (memWrite s.mem (sub16 s.sp 1) s.a) (sub16 s.sp 2) (packPSW s.cc)
      ((sub16 s.sp 2 + 1) % 65536) = s.a := by
    rw [e1, e2, show (s.sp - 2 + 1) % 65536 = s.sp - 1 by omega,
        memWrite_miss _ _ _ (by omega), memWrite_hit]
  simp only [hva, hvp]
  obtain ⟨b1, b2, b3, b4, b5⟩ := packPSW_bits s.cc
  refine ⟨trivial, trivial, trivial, b4, b5, b2, b1, b3, ?_⟩
  rw [e2]
  omega

/-- C6 witness: the roundtrip theorem applied to the concrete pswCpu state
with flags Z=1, S=0, P=1, CY=1, AC=0 and A = 0x9a. -/
theorem push_pop_psw_roundtrip_witness :
    ((Cpu.step pswCpu).bind fun r1 => (Cpu.step r1.1).map fun r2 =>
        (r1.2, r2.2, r2.1.a, r2.1.cc.z, r2.1.cc.s, r2.1.cc.p, r2.1.cc.cy, r2.1.cc.ac, r2.1.sp))
      = some (11, 10, pswCpu.a, pswCpu.cc.z, pswCpu.cc.s, pswCpu.cc.p,
          pswCpu.cc.cy, pswCpu.cc.ac, pswCpu.sp) :=
  push_pop_psw_roundtrip pswCpu (by decide) (by decide) rfl rfl
    (by decide) (by decide) (by decide) (by decide)

set_option maxRecDepth 8192 in
/-- C7: for every host state, the host step's IN 3 loads A with
((shifty << 8 | shiftx) >> (8 - shift_offset)) & 0xFF, its OUT 2 stores the
low 3 bits of A into shift_offset, and its OUT 4 shifts shifty <- shiftx,
shiftx <- A; each advances PC by 2 and returns 10 cycles, leaving the other
shift-register bytes unchanged. -/
theorem machine_shift_register_ops (m : SpaceInvadersMachine) :
    (m.cpu.mem m.cpu.pc = 0xdb → m.cpu.mem ((m.cpu.pc + 1) % 65536) = 3 →
      m.shift_offset < 8 →
      (m.step.map fun r =>
          (r.1.cpu.a, r.1.cpu.pc, r.1.shiftx, r.1.shifty, r.1.shift_offset, r.2))
        = some ((((m.shifty <<< 8) ||| m.shiftx) >>> (8 - m.shift_offset)) &&& 0xff,
            (m.cpu.pc + 2) % 65536, m.shiftx, m.shifty, m.shift_offset, 10)) ∧
    (m.cpu.mem m.cpu.pc = 0xd3 → m.cpu.mem ((m.cpu.pc + 1) % 65536) = 2 →
      m.cpu.ports.length = 8 →
      (m.step.map fun r => (r.1.shift_offset, r.1.cpu.pc, r.1.shiftx, r.1.shifty, r.2))
        = some (m.cpu.a &&& 0x7, (m.cpu.pc + 2) % 65536, m.shiftx, m.shifty, 10)) ∧
    (m.cpu.mem m.cpu.pc = 0xd3 → m.cpu.mem ((m.cpu.pc + 1) % 65536) = 4 →
      m.cpu.ports.length = 8 →
      (m.step.map fun r => (r.1.shiftx, r.1.shifty, r.1.shift_offset, r.1.cpu.pc, r.2))
        = some (m.cpu.a, m.shiftx, m.shift_offset, (m.cpu.pc + 2) % 65536, 10)) := by
  refine ⟨fun h1 h2 _ => ?_, fun h1 h2 hlen => ?_, fun h1 h2 hlen => ?_⟩
  · simp only [SpaceInvadersMachine.step, h1, h2]
    norm_num
  · simp only [SpaceInvadersMachine.step, h1, h2, hlen]
    norm_num
  · simp only [SpaceInvadersMachine.step, h1, h2, hlen]
    norm_num

/-- C7 witness: the shift-register theorem applied to concrete machines -
IN 3 with shiftx = 0xab, shifty = 0xcd, offset 2; OUT 2 with A = 0x0d;
OUT 4 with A = 0x77, shiftx = 0x55. -/
theorem machine_shift_register_ops_witness :
    ((shiftInMachine.step.map fun r =>
        (r.1.cpu.a, r.1.cpu.pc, r.1.shiftx, r.1.shifty, r.1.shift_offset, r.2))
      = some ((((shiftInMachine.shifty <<< 8) ||| shiftInMachine.shiftx) >>>
            (8 - shiftInMachine.shift_offset)) &&& 0xff,
          (shiftInMachine.cpu.pc + 2) % 65536, shiftInMachine.shiftx,
          shiftInMachine.shifty, shiftInMachine.shift_offset, 10)) ∧
    ((shiftOut2Machine.step.map fun r =>
        (r.1.shift_offset, r.1.cpu.pc, r.1.shiftx, r.1.shifty, r.2))
      = some (shiftOut2Machine.cpu.a &&& 0x7, (shiftOut2Machine.cpu.pc + 2) % 65536,
          shiftOut2Machine.shiftx, shiftOut2Machine.shifty, 10)) ∧
    ((shiftOut4Machine.step.map fun r =>
        (r.1.shiftx, r.1.shifty, r.1.shift_offset, r.1.cpu.pc, r.2))
      = some (shiftOut4Machine.cpu.a, shiftOut4Machine.shiftx,
          shiftOut4Machine.shift_offset, (shiftOut4Machine.cpu.pc + 2) % 65536, 10)) :=
  ⟨(machine_shift_register_ops shiftInMachine).1 rfl rfl (by decide),
   (machine_shift_register_ops shiftOut2Machine).2.1 rfl rfl rfl,
   (machine_shift_register_ops shiftOut4Machine).2.2 rfl rfl rfl⟩

set_option maxRecDepth 8192 in
/-- C10 (amended): the CPU's port array has exactly 8 entries; Cpu::step's
IN and OUT and the host step's OUT index it with the 8-bit port operand and
so complete exactly when the operand is 0..7 (panicking otherwise), while
the host step's IN never indexes the port array and completes for every
port operand. -/
theorem ports_bounds (s : Cpu) (m : SpaceInvadersMachine)
    (hs : s.ports.length = 8) (hm : m.cpu.ports.length = 8) :
    Cpu.new.ports.length = 8 ∧
    (s.mem s.pc = 0xdb → ((Cpu.step s).isSome ↔ s.mem ((s.pc + 1) % 65536) < 8)) ∧
    (s.mem s.pc = 0xd3 → ((Cpu.step s).isSome ↔ s.mem ((s.pc + 1) % 65536) < 8)) ∧
    (m.cpu.mem m.cpu.pc = 0xd3 → ((m.step).isSome ↔ m.cpu.mem ((m.cpu.pc + 1) % 65536) < 8)) ∧
    (m.cpu.mem m.cpu.pc = 0xdb → (m.step).isSome) := by
  refine ⟨rfl, fun h1 => ?_, fun h1 => ?_, fun h1 => ?_, fun h1 => ?_⟩
  · simp only [Cpu.step, h1]
    norm_num
    cases hg : s.ports[s.mem ((s.pc + 1) % 65536)]? with
    | none =>
        have hge := List.getElem?_eq_none_iff.mp hg
        simp only [Option.isSome_none, Bool.false_eq_true, false_iff]
        omega
    | some v =>
        have hlt : ¬ s.ports.length ≤ s.mem ((s.pc + 1) % 65536) := fun hge => by
          rw [List.getElem?_eq_none_iff.mpr hge] at hg
          exact Option.noConfusion hg
        simp only [Option.isSome_some, true_iff]
        omega
  · simp only [Cpu.step, h1]
    norm_num
    rw [hs]
  · simp only [SpaceInvadersMachine.step, h1]
    norm_num
    rw [hm]
  · simp only [SpaceInvadersMachine.step, h1]
    norm_num

/-- C10 witness: the ports theorem applied to concrete states - IN 8 and
OUT 8 through Cpu::step (both panic: 8 < 8 is false), OUT 5 through the
host (completes: 5 < 8), and IN 8 through the host (always completes). -/
theorem ports_bounds_witness :
    Cpu.new.ports.length = 8 ∧
    ((Cpu.step in8Cpu).isSome ↔ in8Cpu.mem ((in8Cpu.pc + 1) % 65536) < 8) ∧
    ((Cpu.step out8Cpu).isSome ↔ out8Cpu.mem ((out8Cpu.pc + 1) % 65536) < 8) ∧
    ((out5Machine.step).isSome ↔ out5Machine.cpu.mem ((out5Machine.cpu.pc + 1) % 65536) < 8) ∧
    (in8Machine.step).isSome :=
  ⟨(ports_bounds in8Cpu in8Machine rfl rfl).1,
   (ports_bounds in8Cpu in8Machine rfl rfl).2.1 rfl,
   (ports_bounds out8Cpu in8Machine rfl rfl).2.2.1 rfl,
   (ports_bounds out8Cpu out5Machine rfl rfl).2.2.2.1 rfl,
   (ports_bounds in8Cpu in8Machine rfl rfl).2.2.2.2 rfl⟩

end Emu8080
